import Mathlib

/-!
# Verification of the core_dual_shock input-to-frame pipeline

Shallow embedding of the repository's core data path:

* `input_state.py`  — the shared table of raw channel values (buttons, sticks,
  triggers), its `reset`/`snapshot` operations;
* `mapper.py`       — per-profile normalization of analog raw values to 0–255
  and deadzone filtering for stick axes;
* `tkg_transmitter.py` — the stateful 7-byte frame encoder: header, velocity
  bytes, bit-packed firing/option bytes, and the non-standard CRC-8.

Python `int` is modelled by `ℤ`; Python dictionaries by `String → Option ℤ`
(with `.getD` playing `dict.get`).  Python `float` arithmetic is modelled by
exact rational arithmetic (`ℚ`): on the value ranges the encoder feeds into it
(integers 0–255 scaled by powers of two and by 127) every IEEE-754 binary64
operation the source performs is exact, so the models agree there.  Python's
`x & m` for a mask `m = 2^k - 1` on a (possibly negative) int equals
two's-complement `x mod 2^k`, which is `Int.emod`; `int()` applied to a float
truncates toward zero, modelled by `ratTrunc` below.
-/

namespace CoreDualShock

/-- Truncation toward zero of a rational number, the behaviour of Python's
`int()` on a (finite) float. -/
def ratTrunc (q : ℚ) : ℤ := if 0 ≤ q then ⌊q⌋ else ⌈q⌉

/-! ## input_state.py -/

/-- Button channel names (`BUTTONS` in `input_state.py`). -/
def BUTTONS : List String :=
  ["triangle", "circle", "cross", "square", "L1", "R1", "L3", "R3",
   "dpad_up", "dpad_down", "dpad_left", "dpad_right",
   "select", "start", "ps", "touchpad"]

/-- Analog channel names (`ANALOG_CHANNELS` in `input_state.py`). -/
def ANALOG_CHANNELS : List String :=
  ["left_x", "left_y", "right_x", "right_y", "L2", "R2"]

/-- The stick channels, as the tuple written inline in `InputState.reset`. -/
def STICK_CHANNELS : List String := ["left_x", "left_y", "right_x", "right_y"]

def BUTTON_NEUTRAL : ℤ := 0
def STICK_NEUTRAL : ℤ := 128
def TRIGGER_NEUTRAL : ℤ := 0

/-- Model of `InputSnapshot`: the two dictionaries of the dataclass. -/
structure InputSnapshot where
  buttons : String → Option ℤ
  analog : String → Option ℤ

/-- Lookup `dict.get(name, 0)` on the buttons dictionary. -/
def InputSnapshot.buttonD (s : InputSnapshot) (n : String) : ℤ :=
  (s.buttons n).getD 0

/-- Lookup `dict.get(name, d)` on the analog dictionary. -/
def InputSnapshot.analogD (s : InputSnapshot) (n : String) (d : ℤ) : ℤ :=
  (s.analog n).getD d

/-- The mutable state of `InputState` (the two dictionaries). -/
structure InputState where
  buttons : String → Option ℤ
  analog : String → Option ℤ

/-- Model of `InputState.reset`: write the neutral value into every canonical channel;
entries outside the canonical channel set are left as they were. -/
def InputState.reset (s : InputState) : InputState where
  buttons := fun n => if n ∈ BUTTONS then some BUTTON_NEUTRAL else s.buttons n
  analog := fun n =>
    if n ∈ ANALOG_CHANNELS then
      if n ∈ STICK_CHANNELS then some STICK_NEUTRAL else some TRIGGER_NEUTRAL
    else s.analog n

/-- Model of `InputState.__init__`: empty dictionaries followed by `reset()`. -/
def InputState.init : InputState :=
  InputState.reset ⟨fun _ => none, fun _ => none⟩

/-- Model of `InputState.update_button`. -/
def InputState.update_button (s : InputState) (name : String) (value : ℤ) :
    InputState where
  buttons := fun n => if n = name then some value else s.buttons n
  analog := s.analog

/-- Model of `InputState.update_analog`. -/
def InputState.update_analog (s : InputState) (name : String) (value : ℤ) :
    InputState where
  buttons := s.buttons
  analog := fun n => if n = name then some value else s.analog n

/-- Model of `InputState.snapshot`: copy of both dictionaries. -/
def InputState.snapshot (s : InputState) : InputSnapshot :=
  ⟨s.buttons, s.analog⟩

/-! ## mapper.py -/

/-- A stick/trigger calibration entry of a device profile. -/
structure AxisConfig where
  min : ℤ
  max : ℤ
deriving DecidableEq

/-- The part of a device profile `Mapper.normalize` reads. -/
structure Profile where
  sticks : List (String × AxisConfig)
  triggers : List (String × AxisConfig)

/-- The `DualShock4` profile of `mapper.PROFILES` (analog part). -/
def DualShock4 : Profile where
  sticks := [("left_x", ⟨0, 255⟩), ("left_y", ⟨0, 255⟩),
             ("right_x", ⟨0, 255⟩), ("right_y", ⟨0, 255⟩)]
  triggers := [("L2", ⟨0, 255⟩), ("R2", ⟨0, 255⟩)]

/-- The `DualSense` profile of `mapper.PROFILES` (analog part, identical
calibration to `DualShock4`). -/
def DualSense : Profile where
  sticks := DualShock4.sticks
  triggers := DualShock4.triggers

/-- Model of `Mapper._normalize_value`: linear rescale of `raw` from
`[dev_min, dev_max]` to 0–255 (`int(...)` truncates the float quotient toward
zero), midpoint 128 when the declared range is degenerate, then clamp. -/
def normalize_value (raw dev_min dev_max : ℤ) : ℤ :=
  let normalized : ℤ :=
    if dev_max = dev_min then 128
    else ratTrunc ((((raw - dev_min) * 255 : ℤ) : ℚ) / ((dev_max - dev_min : ℤ) : ℚ))
  max 0 (min 255 normalized)

/-- Model of `Mapper._apply_deadzone`: collapse values strictly within `deadzone` of
the center 128 to exactly 128. -/
def apply_deadzone (deadzone value : ℤ) : ℤ :=
  if |value - 128| < deadzone then 128 else value

/-- Model of `Mapper.normalize`: buttons are copied verbatim; stick channels present in
the snapshot are rescaled and deadzone-filtered; trigger channels are rescaled
only; analog channels not in the profile are dropped. -/
def Mapper.normalize (p : Profile) (deadzone : ℤ) (snap : InputSnapshot) :
    InputSnapshot where
  buttons := snap.buttons
  analog := fun n =>
    match p.triggers.lookup n with
    | some cfg => (snap.analog n).map fun raw =>
        normalize_value raw cfg.min cfg.max
    | none =>
      match p.sticks.lookup n with
      | some cfg => (snap.analog n).map fun raw =>
          apply_deadzone deadzone (normalize_value raw cfg.min cfg.max)
      | none => none

/-! ## tkg_transmitter.py -/

/-- One round of the inner 7-iteration shift loop of `calc_crc8`. -/
def crc8_shift (crc : ℕ) : ℕ :=
  if crc &&& 0x80 = 0x80 then 0xEB ^^^ ((crc <<< 1) &&& 0xFF)
  else (crc <<< 1) &&& 0xFF

/-- Model of `calc_crc8`: XOR each of bytes 0–5 into the accumulator and run the shift
loop seven times per byte (polynomial `0xEB`). -/
def calc_crc8 (data : List ℕ) : ℕ :=
  (List.range 6).foldl (fun crc i => crc8_shift^[7] (crc ^^^ data.getD i 0)) 0

/-- CRC-8 with an arbitrary polynomial and per-byte shift-iteration count over
a whole byte list, stated from the spec's words for comparison with
`calc_crc8`. -/
def crc8_generic (poly rounds : ℕ) (data : List ℕ) : ℕ :=
  data.foldl
    (fun crc b =>
      (fun c => if c &&& 0x80 = 0x80 then poly ^^^ ((c <<< 1) &&& 0xFF)
                else (c <<< 1) &&& 0xFF)^[rounds]
        (crc ^^^ b))
    0

/-- Model of `_duty_to_signed_byte`: clamp `int(duty * 127)` to −127…127 and return its
two's-complement byte (`& 0xFF`, i.e. `mod 256`). -/
def duty_to_signed_byte (duty : ℚ) : ℕ :=
  let val : ℤ := max (-127) (min 127 (ratTrunc (duty * 127)))
  (val % 256).toNat

/-- Model of `_stick_to_duty`: `(value - 128) / 128.0`. -/
def stick_to_duty (value : ℤ) : ℚ := ((value : ℚ) - 128) / 128

/-- Model of `_build_header`: bit 7 is 0 when the safety stop is active and 1 in
normal operation; bits 6–5 the datatype; bits 4–2 the rolling timestamp. -/
def build_header (is_estop : Bool) (datatype timestamp : ℕ) : ℕ :=
  ((if is_estop then 0 else 1) <<< 7) |||
    ((datatype &&& 0x03) <<< 5) ||| ((timestamp &&& 0x07) <<< 2)

/-- Model of `_build_firing` (byte 4): `wheel_speed & 3` in bits 7–6, `fire & 3` in
bits 5–4, `taimatu_lift & 3` in bits 3–2, `hand_forward & 1` in bit 1,
`fire_angle & 1` in bit 0.  The Python `& mask` on ints is `mod 2^k` here. -/
def build_firing (wheel_speed fire taimatu_lift hand_forward fire_angle : ℤ) : ℕ :=
  ((wheel_speed % 4).toNat <<< 6) ||| ((fire % 4).toNat <<< 4) |||
    ((taimatu_lift % 4).toNat <<< 2) ||| ((hand_forward % 2).toNat <<< 1) |||
    (fire_angle % 2).toNat

/-- Model of `_build_opt2` (byte 5): `body_speed_mode & 1` in bit 7, `mg_action & 3`
in bits 6–5. -/
def build_opt2 (body_speed_mode mg_action : ℤ) : ℕ :=
  ((body_speed_mode % 2).toNat <<< 7) ||| ((mg_action % 4).toNat <<< 5)

def DATATYPE_CMD1 : ℕ := 0x01

/-- The cross-frame state of `TKGTransmitter` (`_timestamp`, `_is_estop`,
`_wheel_speed`, `_hand_forward`). -/
structure TxState where
  timestamp : ℕ
  is_estop : Bool
  wheel_speed : ℤ
  hand_forward : ℤ

/-- Model of `TKGTransmitter.__init__`: timestamp 0, safety stop active, wheel speed 0,
hand latch cleared. -/
def TxState.init : TxState := ⟨0, true, 0, 0⟩

/-- Model of `TKGTransmitter.build_frame`: returns the updated cross-frame state and
the 7-byte frame.  The `let` shadowing mirrors the in-place mutations of the
source, including the safety override that zeroes wheel speed, hand latch and
lift after their nominal values are computed. -/
def TKG.build_frame (s : TxState) (snap : InputSnapshot) : TxState × List ℕ :=
  let timestamp := (s.timestamp + 1) &&& 0x07
  let header := build_header s.is_estop DATATYPE_CMD1 timestamp
  let vel_x := duty_to_signed_byte (-(stick_to_duty (snap.analogD "left_y" 128)))
  let vel_y := duty_to_signed_byte (-(stick_to_duty (snap.analogD "left_x" 128)))
  let vel_yaw := duty_to_signed_byte (stick_to_duty (snap.analogD "right_x" 128))
  let body_speed_mode : ℤ := if snap.buttonD "L1" ≠ 0 then 0 else 1
  let fire : ℤ :=
    if snap.buttonD "circle" ≠ 0 then 2
    else if snap.buttonD "cross" ≠ 0 then 1
    else 0
  let fire_angle : ℤ := snap.buttonD "triangle"
  let taimatu_lift : ℤ :=
    if snap.buttonD "dpad_up" ≠ 0 then 1
    else if snap.buttonD "dpad_down" ≠ 0 then 2
    else 0
  let hand_forward : ℤ :=
    if snap.buttonD "square" ≠ 0 then 1
    else if snap.buttonD "R1" ≠ 0 then 0
    else s.hand_forward
  let mg_action : ℤ :=
    if snap.buttonD "dpad_right" ≠ 0 then 1
    else if snap.buttonD "dpad_left" ≠ 0 then 2
    else 0
  let wheel_speed : ℤ := if s.is_estop then 0 else s.wheel_speed
  let hand_forward : ℤ := if s.is_estop then 0 else hand_forward
  let taimatu_lift : ℤ := if s.is_estop then 0 else taimatu_lift
  let firing := build_firing wheel_speed fire taimatu_lift hand_forward fire_angle
  let opt2 := build_opt2 body_speed_mode mg_action
  let crc := calc_crc8 [header, vel_x, vel_y, vel_yaw, firing, opt2, 0x00]
  (⟨timestamp, s.is_estop, wheel_speed, hand_forward⟩,
   [header, vel_x, vel_y, vel_yaw, firing, opt2, crc])

/-- Model of `TKGTransmitter.set_estop`. -/
def TKG.set_estop (s : TxState) (b : Bool) : TxState := { s with is_estop := b }

/-- Model of `TKGTransmitter.wheel_speed_up`: raise one level, saturating at 3. -/
def TKG.wheel_speed_up (s : TxState) : TxState :=
  if s.wheel_speed < 3 then { s with wheel_speed := s.wheel_speed + 1 } else s

/-- Model of `TKGTransmitter.wheel_speed_down`: lower one level, saturating at 0. -/
def TKG.wheel_speed_down (s : TxState) : TxState :=
  if 0 < s.wheel_speed then { s with wheel_speed := s.wheel_speed - 1 } else s

/-- One externally observable operation on a transmitter instance. -/
inductive TxOp where
  | build (snap : InputSnapshot)
  | up
  | down
  | estop (b : Bool)

/-- State after one operation. -/
def TKG.applyOp (s : TxState) : TxOp → TxState
  | .build snap => (TKG.build_frame s snap).1
  | .up => TKG.wheel_speed_up s
  | .down => TKG.wheel_speed_down s
  | .estop b => TKG.set_estop s b

/-- The frames emitted when a sequence of operations runs from state `s`. -/
def TKG.frames (s : TxState) : List TxOp → List (List ℕ)
  | [] => []
  | .build snap :: ops =>
      (TKG.build_frame s snap).2 :: TKG.frames (TKG.build_frame s snap).1 ops
  | .up :: ops => TKG.frames (TKG.wheel_speed_up s) ops
  | .down :: ops => TKG.frames (TKG.wheel_speed_down s) ops
  | .estop b :: ops => TKG.frames (TKG.set_estop s b) ops

/-- Byte `i` of a frame. -/
def frameByte (f : List ℕ) (i : ℕ) : ℕ := f.getD i 0

/-- A snapshot with every button released and every analog channel at the
stick-neutral value. -/
def neutralSnapshot : InputSnapshot :=
  ⟨fun _ => some 0, fun _ => some 128⟩

/-! ## Frame field extraction -/

/-- Header bit 7: 1 in normal operation, 0 under safety stop. -/
def headerSafetyBit (f : List ℕ) : ℕ := (frameByte f 0 >>> 7) &&& 1

/-- Byte 4 bits 7–6: the wheel-speed field. -/
def wheelSpeedBits (f : List ℕ) : ℕ := (frameByte f 4 >>> 6) &&& 3

/-- Byte 4 bits 3–2: the lift-mode field. -/
def liftModeBits (f : List ℕ) : ℕ := (frameByte f 4 >>> 2) &&& 3

/-- Byte 4 bit 1: the hand-forward field. -/
def handForwardBit (f : List ℕ) : ℕ := (frameByte f 4 >>> 1) &&& 1

/-- Byte 5 bit 7: the speed-mode field. -/
def speedModeBit (f : List ℕ) : ℕ := (frameByte f 5 >>> 7) &&& 1

/-! ## Bit-level evaluation lemmas -/

lemma firing_wheel_bits (w f l h a : ℤ) :
    (build_firing w f l h a >>> 6) &&& 3 = (w % 4).toNat := by
  have H : ∀ w' < 4, ∀ f' < 4, ∀ l' < 4, ∀ h' < 2, ∀ a' < 2,
      ((w' <<< 6 ||| f' <<< 4 ||| l' <<< 2 ||| h' <<< 1 ||| a') >>> 6) &&& 3 = w' := by
    decide
  exact H _ (by omega) _ (by omega) _ (by omega) _ (by omega) _ (by omega)

lemma firing_lift_bits (w f l h a : ℤ) :
    (build_firing w f l h a >>> 2) &&& 3 = (l % 4).toNat := by
  have H : ∀ w' < 4, ∀ f' < 4, ∀ l' < 4, ∀ h' < 2, ∀ a' < 2,
      ((w' <<< 6 ||| f' <<< 4 ||| l' <<< 2 ||| h' <<< 1 ||| a') >>> 2) &&& 3 = l' := by
    decide
  exact H _ (by omega) _ (by omega) _ (by omega) _ (by omega) _ (by omega)

lemma firing_hand_bit (w f l h a : ℤ) :
    (build_firing w f l h a >>> 1) &&& 1 = (h % 2).toNat := by
  have H : ∀ w' < 4, ∀ f' < 4, ∀ l' < 4, ∀ h' < 2, ∀ a' < 2,
      ((w' <<< 6 ||| f' <<< 4 ||| l' <<< 2 ||| h' <<< 1 ||| a') >>> 1) &&& 1 = h' := by
    decide
  exact H _ (by omega) _ (by omega) _ (by omega) _ (by omega) _ (by omega)

lemma opt2_speed_bit (b m : ℤ) :
    (build_opt2 b m >>> 7) &&& 1 = (b % 2).toNat := by
  have H : ∀ b' < 2, ∀ m' < 4, ((b' <<< 7 ||| m' <<< 5) >>> 7) &&& 1 = b' := by decide
  exact H _ (by omega) _ (by omega)

lemma header_bit7 (e : Bool) (t : ℕ) :
    (build_header e DATATYPE_CMD1 t >>> 7) &&& 1 = if e then 0 else 1 := by
  have H : ∀ e' < 2, ∀ t' < 8,
      ((e' <<< 7 ||| (1 &&& 3) <<< 5 ||| t' <<< 2) >>> 7) &&& 1 = e' := by decide
  have ht : t &&& 7 < 8 := Nat.lt_succ_of_le (Nat.and_le_right)
  cases e with
  | false => exact H 1 (by omega) _ ht
  | true => exact H 0 (by omega) _ ht

/-! ## Single-frame lemmas -/

lemma estop_build (s : TxState) (snap : InputSnapshot) (hs : s.is_estop = true) :
    (TKG.build_frame s snap).1.is_estop = true ∧
    (TKG.build_frame s snap).1.wheel_speed = 0 ∧
    (TKG.build_frame s snap).1.hand_forward = 0 ∧
    headerSafetyBit (TKG.build_frame s snap).2 = 0 ∧
    wheelSpeedBits (TKG.build_frame s snap).2 = 0 ∧
    liftModeBits (TKG.build_frame s snap).2 = 0 ∧
    handForwardBit (TKG.build_frame s snap).2 = 0 := by
  simp only [TKG.build_frame, hs, if_true, headerSafetyBit, wheelSpeedBits,
    liftModeBits, handForwardBit, frameByte, List.getD, List.get?,
    Option.getD_some, true_and]
  refine ⟨?_, ?_, ?_, ?_⟩
  · rw [header_bit7]; simp
  · rw [firing_wheel_bits]; decide
  · rw [firing_lift_bits]; decide
  · rw [firing_hand_bit]; decide

lemma zerostate_build (s : TxState) (snap : InputSnapshot)
    (hw : s.wheel_speed = 0) (hh : s.hand_forward = 0)
    (hsq : snap.buttonD "square" = 0) :
    (TKG.build_frame s snap).1.wheel_speed = 0 ∧
    (TKG.build_frame s snap).1.hand_forward = 0 ∧
    wheelSpeedBits (TKG.build_frame s snap).2 = 0 ∧
    handForwardBit (TKG.build_frame s snap).2 = 0 := by
  have hws : (TKG.build_frame s snap).1.wheel_speed = 0 := by
    simp [TKG.build_frame, hw]
  have hhf : (TKG.build_frame s snap).1.hand_forward = 0 := by
    simp [TKG.build_frame, hh, hsq]
  have hwb : wheelSpeedBits (TKG.build_frame s snap).2 = 0 := by
    simp only [TKG.build_frame, hw, wheelSpeedBits, frameByte, List.getD,
      List.get?, Option.getD_some, ite_self]
    rw [firing_wheel_bits]; simp
  have hhb : handForwardBit (TKG.build_frame s snap).2 = 0 := by
    simp only [TKG.build_frame, hh, hsq, handForwardBit, frameByte, List.getD,
      List.get?, Option.getD_some, ne_eq, not_true_eq_false, if_false]
    rw [firing_hand_bit]
    by_cases h1 : snap.buttonD "R1" ≠ 0 <;> by_cases h2 : s.is_estop <;>
      simp [h1, h2]
  exact ⟨hws, hhf, hwb, hhb⟩

lemma build_speed_mode (s : TxState) (snap : InputSnapshot) :
    speedModeBit (TKG.build_frame s snap).2 =
      if snap.buttonD "L1" ≠ 0 then 0 else 1 := by
  simp only [TKG.build_frame, speedModeBit, frameByte, List.getD, List.get?,
    Option.getD_some]
  rw [opt2_speed_bit]
  by_cases h : snap.buttonD "L1" ≠ 0 <;> simp [h]

/-! ## Trace lemmas -/

lemma frames_estop (ops : List TxOp) (s : TxState) (hs : s.is_estop = true)
    (hops : ∀ op ∈ ops, op ≠ TxOp.estop false) :
    ∀ f ∈ TKG.frames s ops,
      headerSafetyBit f = 0 ∧ wheelSpeedBits f = 0 ∧
      liftModeBits f = 0 ∧ handForwardBit f = 0 := by
  induction ops generalizing s with
  | nil => intro f hf; simp [TKG.frames] at hf
  | cons op rest ih =>
    have hrest : ∀ op' ∈ rest, op' ≠ TxOp.estop false :=
      fun op' h => hops op' (List.mem_cons_of_mem _ h)
    cases op with
    | build snap =>
      intro f hf
      rw [TKG.frames] at hf
      rcases List.mem_cons.mp hf with rfl | hf'
      · obtain ⟨-, -, -, h4, h5, h6, h7⟩ := estop_build s snap hs
        exact ⟨h4, h5, h6, h7⟩
      · exact ih _ (estop_build s snap hs).1 hrest f hf'
    | up =>
      intro f hf
      rw [TKG.frames] at hf
      refine ih _ ?_ hrest f hf
      simp only [TKG.wheel_speed_up]
      split <;> exact hs
    | down =>
      intro f hf
      rw [TKG.frames] at hf
      refine ih _ ?_ hrest f hf
      simp only [TKG.wheel_speed_down]
      split <;> exact hs
    | estop b =>
      intro f hf
      rw [TKG.frames] at hf
      have hb : b = true := by
        rcases b with _ | _
        · exact absurd rfl (hops _ (List.mem_cons_self _ _))
        · rfl
      subst hb
      exact ih _ rfl hrest f hf

lemma frames_zerostate (ops : List TxOp) (s : TxState)
    (hw : s.wheel_speed = 0) (hh : s.hand_forward = 0)
    (hops : ∀ op ∈ ops, op ≠ TxOp.up ∧
      ∀ sn, op = TxOp.build sn → sn.buttonD "square" = 0) :
    ∀ f ∈ TKG.frames s ops, wheelSpeedBits f = 0 ∧ handForwardBit f = 0 := by
  induction ops generalizing s with
  | nil => intro f hf; simp [TKG.frames] at hf
  | cons op rest ih =>
    have hrest : ∀ op' ∈ rest, op' ≠ TxOp.up ∧
        ∀ sn, op' = TxOp.build sn → sn.buttonD "square" = 0 :=
      fun op' h => hops op' (List.mem_cons_of_mem _ h)
    cases op with
    | build snap =>
      have hsq : snap.buttonD "square" = 0 :=
        (hops _ (List.mem_cons_self _ _)).2 snap rfl
      intro f hf
      rw [TKG.frames] at hf
      rcases List.mem_cons.mp hf with rfl | hf'
      · obtain ⟨-, -, h3, h4⟩ := zerostate_build s snap hw hh hsq
        exact ⟨h3, h4⟩
      · obtain ⟨h1, h2, -, -⟩ := zerostate_build s snap hw hh hsq
        exact ih _ h1 h2 hrest f hf'
    | up => exact absurd rfl (hops _ (List.mem_cons_self _ _)).1
    | down =>
      intro f hf
      rw [TKG.frames] at hf
      have : TKG.wheel_speed_down s = s := by
        simp [TKG.wheel_speed_down, hw]
      rw [this] at hf
      exact ih _ hw hh hrest f hf
    | estop b =>
      intro f hf
      rw [TKG.frames] at hf
      exact ih _ (by simp [TKG.set_estop, hw]) (by simp [TKG.set_estop, hh])
        hrest f hf

/-! ## The velocity path over the integers -/

/-- Truncation toward zero of `n / 128` in integer arithmetic (`/` on ℤ is
Euclidean division, so truncation needs the sign split). -/
def int_trunc_div128 (n : ℤ) : ℤ := if 0 ≤ n then n / 128 else -((-n) / 128)

lemma ratTrunc_intCast_div_natCast (a : ℤ) (d : ℕ) (hd : 0 < d) :
    ratTrunc ((a : ℚ) / (d : ℚ)) =
      if 0 ≤ a then a / (d : ℤ) else -((-a) / (d : ℤ)) := by
  have hdq : (0 : ℚ) < (d : ℚ) := by exact_mod_cast hd
  unfold ratTrunc
  by_cases ha : 0 ≤ a
  · rw [if_pos (div_nonneg (by exact_mod_cast ha) hdq.le), if_pos ha,
      Rat.floor_intCast_div_natCast]
  · rw [if_neg (not_le.mpr (div_neg_of_neg_of_pos (by exact_mod_cast not_le.mp ha) hdq)),
      if_neg ha]
    have h2 : ((a : ℚ) / (d : ℚ)) = -(((-a : ℤ) : ℚ) / (d : ℚ)) := by
      push_cast; ring
    rw [h2, Int.ceil_neg, Rat.floor_intCast_div_natCast]

lemma stick_duty_trunc (v : ℤ) :
    ratTrunc (stick_to_duty v * 127) = int_trunc_div128 ((v - 128) * 127) := by
  have h : stick_to_duty v * 127 = (((v - 128) * 127 : ℤ) : ℚ) / ((128 : ℕ) : ℚ) := by
    unfold stick_to_duty; push_cast; ring
  rw [h, ratTrunc_intCast_div_natCast _ 128 (by norm_num), int_trunc_div128]
  norm_num

lemma stick_duty_trunc_neg (v : ℤ) :
    ratTrunc (-(stick_to_duty v) * 127) = int_trunc_div128 ((128 - v) * 127) := by
  have h : -(stick_to_duty v) * 127 = (((128 - v) * 127 : ℤ) : ℚ) / ((128 : ℕ) : ℚ) := by
    unfold stick_to_duty; push_cast; ring
  rw [h, ratTrunc_intCast_div_natCast _ 128 (by norm_num), int_trunc_div128]
  norm_num

/-- Evaluation of `_duty_to_signed_byte ∘ _stick_to_duty` in pure integer arithmetic. -/
lemma duty_byte_stick (v : ℤ) :
    duty_to_signed_byte (stick_to_duty v) =
      ((max (-127) (min 127 (int_trunc_div128 ((v - 128) * 127)))) % 256).toNat := by
  unfold duty_to_signed_byte
  rw [stick_duty_trunc]

/-- Rounding to the nearest integer, the reading of "round" in the spec's
velocity formula, for comparison with the code's truncation. -/
def ratRound (q : ℚ) : ℤ := ⌊q + 1 / 2⌋

/-- The velocity byte as the spec's words describe it:
`clamp(round(duty * 127), -127, 127)` in two's-complement form, with
`duty = (v - 128) / 128.0`. -/
def spec_velocity_byte (v : ℤ) : ℕ :=
  ((max (-127) (min 127 (ratRound (stick_to_duty v * 127)))) % 256).toNat

lemma spec_velocity_byte_129 : spec_velocity_byte 129 = 1 := by
  have h : stick_to_duty 129 * 127 + 1 / 2 = ((191 : ℤ) : ℚ) / ((128 : ℕ) : ℚ) := by
    unfold stick_to_duty; push_cast; ring
  rw [spec_velocity_byte, ratRound, h, Rat.floor_intCast_div_natCast]
  decide

lemma duty_byte_ge_one (q : ℚ) (h : 1 ≤ q) : duty_to_signed_byte q = 0x7F := by
  have h127 : (127 : ℤ) ≤ ratTrunc (q * 127) := by
    have hq : (127 : ℚ) ≤ q * 127 := by nlinarith
    rw [ratTrunc, if_pos (by linarith)]
    exact Int.le_floor.mpr (by exact_mod_cast hq)
  simp only [duty_to_signed_byte]
  omega

lemma duty_byte_le_negone (q : ℚ) (h : q ≤ -1) : duty_to_signed_byte q = 0x81 := by
  have h127 : ratTrunc (q * 127) ≤ -127 := by
    have hq : q * 127 ≤ (-127 : ℚ) := by nlinarith
    rw [ratTrunc, if_neg (by push_neg; linarith)]
    exact Int.ceil_le.mpr (by exact_mod_cast hq)
  simp only [duty_to_signed_byte]
  omega

lemma duty_byte_zero : duty_to_signed_byte 0 = 0x00 := by
  have h0 : ratTrunc (0 * 127) = 0 := by
    rw [zero_mul, ratTrunc, if_pos le_rfl, Int.floor_zero]
  simp only [duty_to_signed_byte]
  omega

lemma duty_byte_ne_80 (q : ℚ) : duty_to_signed_byte q ≠ 0x80 := by
  simp only [duty_to_signed_byte]
  omega

/-! ## CRC lemmas -/

lemma calc_crc8_agree (d1 d2 : List ℕ) (h : ∀ i < 6, d1.getD i 0 = d2.getD i 0) :
    calc_crc8 d1 = calc_crc8 d2 := by
  have e0 := h 0 (by omega)
  have e1 := h 1 (by omega)
  have e2 := h 2 (by omega)
  have e3 := h 3 (by omega)
  have e4 := h 4 (by omega)
  have e5 := h 5 (by omega)
  simp only [calc_crc8, show List.range 6 = [0, 1, 2, 3, 4, 5] from rfl,
    List.foldl]
  rw [e0, e1, e2, e3, e4, e5]

set_option maxRecDepth 4000 in
lemma calc_crc8_generic (d : List ℕ) (hd : 6 ≤ d.length) :
    calc_crc8 d = crc8_generic 0xEB 7 (d.take 6) := by
  rcases d with _ | ⟨a, _ | ⟨b, _ | ⟨c, _ | ⟨e, _ | ⟨f, _ | ⟨g, rest⟩⟩⟩⟩⟩⟩ <;>
    first
      | rfl
      | simp at hd

/-! ## Claim theorems -/

/-- C1: once the safety-stop flag is set by `set_estop(True)` and no
`set_estop(False)` occurs, every frame produced by any subsequent sequence of
`build_frame` / wheel-speed operations has the wheel-speed, lift-mode and
hand-forward fields of byte 4 equal to zero, whatever the input snapshots
hold — the override zeroes the fields after their nominal values are
computed. -/
theorem estop_overrides_all_frames (s : TxState) (ops : List TxOp)
    (hops : ∀ op ∈ ops, op ≠ TxOp.estop false) :
    ∀ f ∈ TKG.frames (TKG.set_estop s true) ops,
      wheelSpeedBits f = 0 ∧ liftModeBits f = 0 ∧ handForwardBit f = 0 := by
  intro f hf
  obtain ⟨-, h5, h6, h7⟩ := frames_estop ops (TKG.set_estop s true) rfl hops f hf
  exact ⟨h5, h6, h7⟩

/-- C1 witness: the frame built with every discrete channel held right after
`set_estop(True)` has zero wheel-speed, lift-mode and hand-forward fields. -/
theorem estop_overrides_all_frames_witness :
    wheelSpeedBits (TKG.build_frame (TKG.set_estop TxState.init true)
        ⟨fun _ => some 1, fun _ => some 128⟩).2 = 0 ∧
    liftModeBits (TKG.build_frame (TKG.set_estop TxState.init true)
        ⟨fun _ => some 1, fun _ => some 128⟩).2 = 0 ∧
    handForwardBit (TKG.build_frame (TKG.set_estop TxState.init true)
        ⟨fun _ => some 1, fun _ => some 128⟩).2 = 0 :=
  estop_overrides_all_frames TxState.init
    [TxOp.build ⟨fun _ => some 1, fun _ => some 128⟩]
    (by
      intro op hop
      rw [List.mem_singleton] at hop
      subst hop
      simp)
    _ (List.mem_singleton.mpr rfl)

/-- C2 counterexample: with the L1 channel not held, the speed-mode bit of
the produced frame is 1, not 0 as the claim states. -/
theorem speed_mode_claim_counterexample :
    neutralSnapshot.buttonD "L1" = 0 ∧
    speedModeBit (TKG.build_frame TxState.init neutralSnapshot).2 ≠ 0 := by
  constructor
  · rfl
  · decide

/-- C2 (amended): the speed-mode bit (byte 5, bit 7) is 1 when the L1
channel is not held and 0 when it is held — the inverse of the claimed
polarity. -/
theorem speed_mode_bit_amended (s : TxState) (snap : InputSnapshot) :
    speedModeBit (TKG.build_frame s snap).2 =
      if snap.buttonD "L1" ≠ 0 then 0 else 1 :=
  build_speed_mode s snap

/-- C3 counterexample: at normalized stick value 129 the code truncates
`duty * 127 = 127/128` to 0, while the claimed `round` formula yields 1. -/
theorem velocity_round_counterexample :
    duty_to_signed_byte (stick_to_duty 129) = 0 ∧ spec_velocity_byte 129 = 1 ∧
    duty_to_signed_byte (stick_to_duty 129) ≠ spec_velocity_byte 129 := by
  have h1 : duty_to_signed_byte (stick_to_duty 129) = 0 := by
    rw [duty_byte_stick]; decide
  exact ⟨h1, spec_velocity_byte_129, by rw [h1, spec_velocity_byte_129]; decide⟩

/-- C3 (amended): for every normalized stick value v (0–255) the velocity
byte equals `clamp(trunc(duty*127), -127, 127)` in two's-complement form,
where `trunc` truncates toward zero (Python `int()`) rather than rounding;
duty 1.0 yields 0x7F, −1.0 yields 0x81, 0.0 yields 0x00, duty values outside
[−1, 1] clamp to those same bounds, and the byte 0x80 is never produced. -/
theorem velocity_byte_trunc_amended (v : ℤ) (h1 : 0 ≤ v) (h2 : v ≤ 255) :
    duty_to_signed_byte (stick_to_duty v) =
      ((max (-127) (min 127 (int_trunc_div128 ((v - 128) * 127)))) % 256).toNat ∧
    duty_to_signed_byte 1 = 0x7F ∧
    duty_to_signed_byte (-1) = 0x81 ∧
    duty_to_signed_byte 0 = 0x00 ∧
    (∀ q : ℚ, 1 ≤ q → duty_to_signed_byte q = 0x7F) ∧
    (∀ q : ℚ, q ≤ -1 → duty_to_signed_byte q = 0x81) ∧
    (∀ q : ℚ, duty_to_signed_byte q ≠ 0x80) :=
  ⟨duty_byte_stick v, duty_byte_ge_one 1 le_rfl, duty_byte_le_negone (-1) le_rfl,
   duty_byte_zero, duty_byte_ge_one, duty_byte_le_negone, duty_byte_ne_80⟩

/-- C3 witness: the amended formula at the concrete stick value 5. -/
theorem velocity_byte_trunc_amended_witness :
    duty_to_signed_byte (stick_to_duty 5) =
      ((max (-127) (min 127 (int_trunc_div128 ((5 - 128) * 127)))) % 256).toNat :=
  (velocity_byte_trunc_amended 5 (by decide) (by decide)).1

/-- C4: `calc_crc8` depends only on bytes 0–5 of its input, and on inputs of
length at least 6 it equals the CRC-8 with polynomial 0xEB and exactly 7
shift iterations per input byte applied to bytes 0–5. -/
theorem crc_depends_on_first6 (d1 d2 e : List ℕ)
    (h : ∀ i < 6, d1.getD i 0 = d2.getD i 0) (he : 6 ≤ e.length) :
    calc_crc8 d1 = calc_crc8 d2 ∧ calc_crc8 e = crc8_generic 0xEB 7 (e.take 6) :=
  ⟨calc_crc8_agree d1 d2 h, calc_crc8_generic e he⟩

/-- C4 witness: two 7-byte frames differing only in byte 6. -/
theorem crc_depends_on_first6_witness :
    calc_crc8 [0xA4, 0x3F, 0xC1, 0x7F, 0x00, 0x00, 0x00] =
      calc_crc8 [0xA4, 0x3F, 0xC1, 0x7F, 0x00, 0x00, 0xFF] ∧
    calc_crc8 [0xA4, 0x3F, 0xC1, 0x7F, 0x00, 0x00, 0x00] =
      crc8_generic 0xEB 7 ([0xA4, 0x3F, 0xC1, 0x7F, 0x00, 0x00, 0x00].take 6) :=
  crc_depends_on_first6 _ _ _ (by decide) (by decide)

/-- C5: for every continuous channel with declared range [min,max] and raw
value within it, normalization stays in [0,255]; with a non-degenerate range
the endpoints map to 0 and 255; a degenerate range returns the midpoint 128
instead of dividing by zero. -/
theorem normalize_value_spec (raw lo hi : ℤ) (h1 : lo ≤ raw) (h2 : raw ≤ hi) :
    (0 ≤ normalize_value raw lo hi ∧ normalize_value raw lo hi ≤ 255) ∧
    (lo < hi → normalize_value lo lo hi = 0 ∧ normalize_value hi lo hi = 255) ∧
    (lo = hi → normalize_value raw lo hi = 128) := by
  refine ⟨?_, fun hlt => ⟨?_, ?_⟩, fun heq => ?_⟩
  · simp only [normalize_value]
    split <;> omega
  · simp only [normalize_value]
    rw [if_neg (by omega)]
    have hz : ((lo - lo) * 255 : ℤ) = 0 := by ring
    rw [hz]
    norm_num [ratTrunc]
  · simp only [normalize_value]
    rw [if_neg (by omega)]
    have hne : ((hi - lo : ℤ) : ℚ) ≠ 0 := by
      exact_mod_cast sub_ne_zero.mpr (ne_of_gt hlt)
    have hne' : ((hi : ℚ) - lo) ≠ 0 := by push_cast at hne; exact hne
    have hq : (((hi - lo) * 255 : ℤ) : ℚ) / ((hi - lo : ℤ) : ℚ) = 255 := by
      push_cast
      rw [mul_comm, mul_div_assoc, div_self hne', mul_one]
    rw [hq]
    have h255 : ratTrunc 255 = 255 := by
      rw [ratTrunc, if_pos (by norm_num)]
      norm_num
    rw [h255]
    decide
  · simp only [normalize_value]
    rw [if_pos heq.symm]
    decide

/-- C5 witness: the DualShock4 stick calibration range [0,255] at raw 100. -/
theorem normalize_value_spec_witness :
    0 ≤ normalize_value 100 0 255 ∧ normalize_value 100 0 255 ≤ 255 :=
  (normalize_value_spec 100 0 255 (by decide) (by decide)).1

/-- C6: a stick channel of the profile is rescaled and then deadzone-filtered,
where the deadzone step collapses values strictly within `deadzone` of 128 to
exactly 128 and passes values at or beyond the bound unchanged; trigger
channels are rescaled with no deadzone step; buttons copy through verbatim. -/
theorem mapper_deadzone_spec (p : Profile) (dz : ℤ) (snap : InputSnapshot)
    (n : String) (cfg : AxisConfig)
    (hstick : p.sticks.lookup n = some cfg)
    (hnotrig : p.triggers.lookup n = none) :
    ((Mapper.normalize p dz snap).analog n =
        (snap.analog n).map fun raw =>
          apply_deadzone dz (normalize_value raw cfg.min cfg.max)) ∧
    (∀ m tcfg, p.triggers.lookup m = some tcfg →
        (Mapper.normalize p dz snap).analog m =
          (snap.analog m).map fun raw => normalize_value raw tcfg.min tcfg.max) ∧
    ((Mapper.normalize p dz snap).buttons = snap.buttons) ∧
    (∀ v : ℤ, |v - 128| < dz → apply_deadzone dz v = 128) ∧
    (∀ v : ℤ, dz ≤ |v - 128| → apply_deadzone dz v = v) := by
  refine ⟨?_, ?_, rfl, ?_, ?_⟩
  · simp only [Mapper.normalize, hstick, hnotrig]
  · intro m tcfg hm
    simp only [Mapper.normalize, hm]
  · intro v hv
    rw [apply_deadzone, if_pos hv]
  · intro v hv
    rw [apply_deadzone, if_neg (not_lt.mpr hv)]

/-- C6 witness: deadzone 10 collapses the stick value 125 to center 128. -/
theorem mapper_deadzone_spec_witness : apply_deadzone 10 125 = 128 :=
  (mapper_deadzone_spec DualShock4 10 neutralSnapshot "left_x" ⟨0, 255⟩
    (by decide) (by decide)).2.2.2.1 125 (by decide)

/-- C7: after `reset()` (also immediately after construction) a snapshot holds
an entry for every canonical channel with every button 0, every stick channel
128 and both triggers 0. -/
theorem reset_snapshot_neutral (s : InputState) :
    (∀ n ∈ BUTTONS, (InputState.snapshot (InputState.reset s)).buttons n = some 0) ∧
    (∀ n ∈ STICK_CHANNELS,
        (InputState.snapshot (InputState.reset s)).analog n = some 128) ∧
    (∀ n ∈ (["L2", "R2"] : List String),
        (InputState.snapshot (InputState.reset s)).analog n = some 0) ∧
    (∀ n ∈ BUTTONS, (InputState.snapshot InputState.init).buttons n = some 0) ∧
    (∀ n ∈ STICK_CHANNELS,
        (InputState.snapshot InputState.init).analog n = some 128) ∧
    (∀ n ∈ (["L2", "R2"] : List String),
        (InputState.snapshot InputState.init).analog n = some 0) := by
  have hb : ∀ (t : InputState), ∀ n ∈ BUTTONS,
      (InputState.snapshot (InputState.reset t)).buttons n = some 0 := by
    intro t n hn
    simp [InputState.snapshot, InputState.reset, hn, BUTTON_NEUTRAL]
  have hst : ∀ (t : InputState), ∀ n ∈ STICK_CHANNELS,
      (InputState.snapshot (InputState.reset t)).analog n = some 128 := by
    intro t n hn
    have hn' : n ∈ ANALOG_CHANNELS := by fin_cases hn <;> decide
    simp [InputState.snapshot, InputState.reset, hn, hn', STICK_NEUTRAL]
  have htr : ∀ (t : InputState), ∀ n ∈ (["L2", "R2"] : List String),
      (InputState.snapshot (InputState.reset t)).analog n = some 0 := by
    intro t n hn
    fin_cases hn <;>
      simp [InputState.snapshot, InputState.reset, ANALOG_CHANNELS,
        STICK_CHANNELS, TRIGGER_NEUTRAL]
  exact ⟨hb s, hst s, htr s, hb _, hst _, htr _⟩

/-- C7 witness: the cross button after a reset of the freshly built table. -/
theorem reset_snapshot_neutral_witness :
    (InputState.snapshot (InputState.reset InputState.init)).buttons "cross" = some 0 :=
  (reset_snapshot_neutral InputState.init).1 "cross" (by decide)

/-- C8: the wheel-speed level starts at 0 and stays within 0–3: `wheel_speed_up`
adds exactly 1 below 3 and saturates at 3, `wheel_speed_down` subtracts exactly
1 above 0 and saturates at 0, `build_frame` leaves it unchanged except under
safety-stop where it zeroes it, and `set_estop` never changes it. -/
theorem wheel_speed_invariant (s : TxState)
    (hlo : 0 ≤ s.wheel_speed) (hhi : s.wheel_speed ≤ 3) :
    TxState.init.wheel_speed = 0 ∧
    (∀ op : TxOp, 0 ≤ (TKG.applyOp s op).wheel_speed ∧
      (TKG.applyOp s op).wheel_speed ≤ 3) ∧
    (s.wheel_speed < 3 → (TKG.wheel_speed_up s).wheel_speed = s.wheel_speed + 1) ∧
    (s.wheel_speed = 3 → (TKG.wheel_speed_up s).wheel_speed = 3) ∧
    (0 < s.wheel_speed → (TKG.wheel_speed_down s).wheel_speed = s.wheel_speed - 1) ∧
    (s.wheel_speed = 0 → (TKG.wheel_speed_down s).wheel_speed = 0) ∧
    (∀ snap, (TKG.build_frame s snap).1.wheel_speed =
      if s.is_estop then 0 else s.wheel_speed) ∧
    (∀ b, (TKG.set_estop s b).wheel_speed = s.wheel_speed) := by
  refine ⟨rfl, ?_, ?_, ?_, ?_, ?_, ?_, fun b => rfl⟩
  · intro op
    cases op with
    | build snap =>
      have h : (TKG.applyOp s (TxOp.build snap)).wheel_speed =
          if s.is_estop then 0 else s.wheel_speed := by
        simp [TKG.applyOp, TKG.build_frame]
      rw [h]; split <;> omega
    | up =>
      simp only [TKG.applyOp, TKG.wheel_speed_up]
      split
      · exact ⟨by show (0:ℤ) ≤ s.wheel_speed + 1; omega,
          by show s.wheel_speed + 1 ≤ (3:ℤ); omega⟩
      · exact ⟨hlo, hhi⟩
    | down =>
      simp only [TKG.applyOp, TKG.wheel_speed_down]
      split
      · exact ⟨by show (0:ℤ) ≤ s.wheel_speed - 1; omega,
          by show s.wheel_speed - 1 ≤ (3:ℤ); omega⟩
      · exact ⟨hlo, hhi⟩
    | estop b => exact ⟨hlo, hhi⟩
  · intro h
    simp [TKG.wheel_speed_up, h]
  · intro h
    simp [TKG.wheel_speed_up, h]
  · intro h
    simp only [TKG.wheel_speed_down]
    rw [if_pos h]
  · intro h
    simp [TKG.wheel_speed_down, h]
  · intro snap
    simp [TKG.build_frame]

/-- C8 witness: from level 2 (a legal state) a wheel-speed decrement lands on
exactly 1, and the fresh encoder starts at level 0. -/
theorem wheel_speed_invariant_witness :
    TxState.init.wheel_speed = 0 ∧
    (TKG.wheel_speed_down ⟨0, false, 2, 0⟩).wheel_speed = 1 :=
  ⟨(wheel_speed_invariant ⟨0, false, 2, 0⟩ (by decide) (by decide)).1,
   (wheel_speed_invariant ⟨0, false, 2, 0⟩ (by decide) (by decide)).2.2.2.2.1
     (by decide)⟩

/-- C9: a freshly constructed encoder has the safety-stop flag set, and until
`set_estop(False)` occurs every frame it produces carries header bit 7 equal
to 0 and zero wheel-speed, lift-mode and hand-forward fields, whatever the
snapshots contain. -/
theorem init_estop_all_zero (ops : List TxOp)
    (hops : ∀ op ∈ ops, op ≠ TxOp.estop false) :
    TxState.init.is_estop = true ∧
    ∀ f ∈ TKG.frames TxState.init ops,
      headerSafetyBit f = 0 ∧ wheelSpeedBits f = 0 ∧
      liftModeBits f = 0 ∧ handForwardBit f = 0 :=
  ⟨rfl, frames_estop ops TxState.init rfl hops⟩

/-- C9 witness: the first frame built by a fresh encoder with all buttons
held has safety bit 0 and zero wheel/lift/hand fields. -/
theorem init_estop_all_zero_witness :
    TxState.init.is_estop = true ∧
    headerSafetyBit (TKG.build_frame TxState.init
        ⟨fun _ => some 1, fun _ => some 128⟩).2 = 0 ∧
    wheelSpeedBits (TKG.build_frame TxState.init
        ⟨fun _ => some 1, fun _ => some 128⟩).2 = 0 ∧
    liftModeBits (TKG.build_frame TxState.init
        ⟨fun _ => some 1, fun _ => some 128⟩).2 = 0 ∧
    handForwardBit (TKG.build_frame TxState.init
        ⟨fun _ => some 1, fun _ => some 128⟩).2 = 0 :=
  ⟨(init_estop_all_zero [] (by simp)).1,
   (init_estop_all_zero [TxOp.build ⟨fun _ => some 1, fun _ => some 128⟩]
      (by
        intro op hop
        rw [List.mem_singleton] at hop
        subst hop
        simp)).2
     _ (List.mem_singleton.mpr rfl)⟩

/-- C10: a `build_frame` under safety-stop persistently zeroes the encoder's
wheel-speed level and hand-forward latch, so after the stop is cleared all
later frames still carry zero wheel-speed and hand-forward fields until a
`wheel_speed_up` call or a press of the hand-set (square) channel occurs. -/
theorem estop_build_zeroes_state (s : TxState) (hs : s.is_estop = true)
    (snap : InputSnapshot) (ops : List TxOp)
    (hops : ∀ op ∈ ops, op ≠ TxOp.up ∧
      ∀ sn, op = TxOp.build sn → sn.buttonD "square" = 0) :
    (TKG.build_frame s snap).1.wheel_speed = 0 ∧
    (TKG.build_frame s snap).1.hand_forward = 0 ∧
    ∀ f ∈ TKG.frames (TKG.set_estop (TKG.build_frame s snap).1 false) ops,
      wheelSpeedBits f = 0 ∧ handForwardBit f = 0 := by
  obtain ⟨-, h2, h3, -, -, -, -⟩ := estop_build s snap hs
  refine ⟨h2, h3, frames_zerostate ops _ ?_ ?_ hops⟩
  · simp [TKG.set_estop, h2]
  · simp [TKG.set_estop, h3]

/-- C10 witness: an estop frame built with everything held zeroes the stored
wheel level and hand latch, and the square-free frame built right after the
stop is cleared still carries zero wheel-speed and hand-forward fields. -/
theorem estop_build_zeroes_state_witness :
    (TKG.build_frame TxState.init ⟨fun _ => some 1, fun _ => some 128⟩).1.wheel_speed = 0 ∧
    (TKG.build_frame TxState.init ⟨fun _ => some 1, fun _ => some 128⟩).1.hand_forward = 0 ∧
    wheelSpeedBits (TKG.build_frame
        (TKG.set_estop
          (TKG.build_frame TxState.init ⟨fun _ => some 1, fun _ => some 128⟩).1 false)
        neutralSnapshot).2 = 0 ∧
    handForwardBit (TKG.build_frame
        (TKG.set_estop
          (TKG.build_frame TxState.init ⟨fun _ => some 1, fun _ => some 128⟩).1 false)
        neutralSnapshot).2 = 0 :=
  have h := estop_build_zeroes_state TxState.init rfl
    ⟨fun _ => some 1, fun _ => some 128⟩ [TxOp.build neutralSnapshot] (by
      intro op hop
      rw [List.mem_singleton] at hop
      subst hop
      exact ⟨by simp, fun sn hsn => by cases hsn; rfl⟩)
  ⟨h.1, h.2.1, (h.2.2 _ (List.mem_singleton.mpr rfl)).1,
    (h.2.2 _ (List.mem_singleton.mpr rfl)).2⟩

end CoreDualShock
